import Mathlib

/-!
Verification of the policy-as-code compliance reporting core.

The definitions below are a shallow embedding of the Python source:
  * `reporting/compliance_report.py` — violation loading, control
    evaluation, framework aggregation (`ComplianceReporter`);
  * `reporting/cli.py` — the `generate` command's input handling;
  * `reporting/generators/html_report.py` and
    `reporting/generators/json_report.py` — summary statistics and
    severity grouping.

Python dictionaries holding violation records are modelled by the
`Violation` structure with optional string fields (a missing key is
`none`); `dict.get(key, default)` becomes `Option.getD`.  JSON values at
the input boundary are modelled by the `Json` inductive.  Python strings
are Lean `String`s; scores are `Nat`; the overall score, a Python float
produced by `round(x, 1)`, is modelled as a rational rounded half-to-even
at one decimal place.
-/

namespace PolicyAsCode

/-- A canonical violation record.  In the source a violation is a mapping
read with `violation.get("policy", "")`, `violation.get("severity",
"MEDIUM")` and `violation.get("message", "No message")`; each field is
`none` when the key is absent. -/
structure Violation where
  policy : Option String
  severity : Option String
  message : Option String
  deriving DecidableEq, Repr

/-- A control from the static `FRAMEWORK_CONTROLS` table: `title`,
`description` and the `policy_mappings` list of policy-name string
prefixes. -/
structure Control where
  title : String
  description : String
  policy_mappings : List String
  deriving DecidableEq, Repr

/-- Result record built by `_evaluate_control` (source lines 347–355):
`status` is one of the strings `"PASS"`, `"PARTIAL"`, `"FAIL"`. -/
structure ControlResult where
  control_id : String
  title : String
  description : String
  status : String
  score : Nat
  findings : List String
  evidence : List String
  deriving DecidableEq, Repr

/-- Character-level test that the second list is an initial segment of
the first; `strStartsWith` below lifts it to strings. -/
def charsStartWith : List Char → List Char → Bool
  | _, [] => true
  | [], _ :: _ => false
  | c :: s, d :: p => c == d && charsStartWith s p

/-- Python's `s.startswith(pre)`: case-sensitive initial-segment test with
no wildcard expansion.  (Defined on the character lists so that concrete
instances reduce inside the kernel.) -/
def strStartsWith (s pre : String) : Bool :=
  charsStartWith s.data pre.data

/-- The matching test of `_evaluate_control` (source lines 357–364): a
violation is appended to `mapped_violations` when
`violation.get("policy", "").startswith(mapping)` holds for some entry of
`control["policy_mappings"]` (the inner `break` only prevents appending
the same violation twice, so one membership test per mapping suffices). -/
def matchesControl (c : Control) (v : Violation) : Bool :=
  c.policy_mappings.any (fun m => strStartsWith (v.policy.getD "") m)

/-- The `mapped_violations` list of `_evaluate_control`: the violations
matching the control, in encounter order. -/
def mappedViolations (c : Control) (violations : List Violation) : List Violation :=
  violations.filter (matchesControl c)

/-- A findings entry, source line 375: the f-string
`f"{v.get('severity', 'MEDIUM')}: {v.get('message', 'No message')}"`. -/
def findingLine (v : Violation) : String :=
  v.severity.getD "MEDIUM" ++ ": " ++ v.message.getD "No message"

/-- `_evaluate_control` (source lines 342–386): zero matches give
PASS/100 with one evidence entry, one or two matches give PARTIAL/65,
three or more give FAIL/25; PARTIAL and FAIL carry one formatted finding
per matched violation. -/
def evaluate_control (control_id : String) (c : Control)
    (violations : List Violation) : ControlResult :=
  let mapped := mappedViolations c violations
  if mapped.length = 0 then
    { control_id := control_id, title := c.title, description := c.description
      status := "PASS", score := 100, findings := []
      evidence := ["No policy violations found for this control"] }
  else if mapped.length ≤ 2 then
    { control_id := control_id, title := c.title, description := c.description
      status := "PARTIAL", score := 65, findings := mapped.map findingLine
      evidence := [] }
  else
    { control_id := control_id, title := c.title, description := c.description
      status := "FAIL", score := 25, findings := mapped.map findingLine
      evidence := [] }

/-- A framework from `FRAMEWORK_CONTROLS`: display name, description and
the ordered control table (control id paired with the control). -/
structure Framework where
  name : String
  description : String
  controls : List (String × Control)
  deriving DecidableEq, Repr

/-- The result dictionary built by `evaluate_framework` (source lines
312–320): per-control results in framework order, the three status
counters and the rounded overall score. -/
structure FrameworkResult where
  framework : String
  description : String
  controls : List ControlResult
  overall_score : ℚ
  pass_count : Nat
  partial_count : Nat
  fail_count : Nat
  deriving DecidableEq, Repr

/-- Round a rational to the nearest integer with ties going to the even
integer, the behaviour of Python's built-in `round`. -/
def roundHalfEven (q : ℚ) : ℤ :=
  if q - ⌊q⌋ < 1 / 2 then ⌊q⌋
  else if 1 / 2 < q - ⌊q⌋ then ⌊q⌋ + 1
  else if ⌊q⌋ % 2 = 0 then ⌊q⌋ else ⌊q⌋ + 1

/-- Python's `round(q, 1)`: round to one decimal place, ties to even. -/
def round1 (q : ℚ) : ℚ :=
  (roundHalfEven (q * 10) : ℚ) / 10

/-- The body of `evaluate_framework` after the registry lookup succeeds
(source lines 312–340): evaluate every control in order, count statuses
with the `if/elif/else` cascade (PASS, else PARTIAL, else fail), and set
`overall_score` to `round(total_score / total_controls, 1)` when the
framework has controls, keeping the initial `0` otherwise. -/
def frameworkResult (fw : Framework) (violations : List Violation) : FrameworkResult :=
  let results := fw.controls.map (fun c => evaluate_control c.1 c.2 violations)
  let pass_count := (results.filter (fun r => r.status == "PASS")).length
  let partial_count :=
    (results.filter (fun r => !(r.status == "PASS") && r.status == "PARTIAL")).length
  let fail_count :=
    (results.filter (fun r => !(r.status == "PASS") && !(r.status == "PARTIAL"))).length
  let overall_score : ℚ :=
    if results.length = 0 then 0
    else round1 ((results.map (fun r => (r.score : ℚ))).sum / results.length)
  { framework := fw.name, description := fw.description, controls := results,
    overall_score := overall_score, pass_count := pass_count,
    partial_count := partial_count, fail_count := fail_count }

/-- `evaluate_framework` (source lines 303–340).  The source looks the
name up in `self.frameworks` and raises `ValueError(f"Unknown framework:
{framework_name}")` when `not framework` holds; every registry entry is a
non-empty mapping, so `not framework` is exactly a failed lookup, modelled
by `Except.error`. -/
def evaluate_framework (frameworks : List (String × Framework))
    (framework_name : String) (violations : List Violation) :
    Except String FrameworkResult :=
  match frameworks.lookup framework_name with
  | none => .error ("Unknown framework: " ++ framework_name)
  | some fw => .ok (frameworkResult fw violations)

/-- The `"sox"` entry of `FRAMEWORK_CONTROLS` (source lines 77–109). -/
def soxFramework : Framework :=
  ⟨"SOX (Sarbanes-Oxley Act)", "Financial reporting integrity and internal controls",
   [("SOX-302",
     ⟨"Management Assessment of Internal Controls",
      "CEO/CFO certification of internal controls over financial reporting",
      ["aws.security.iam_mfa", "aws.compliance.sox", "azure.security.key_vault"]⟩),
    ("SOX-404",
     ⟨"Internal Control Assessment",
      "Document and assess effectiveness of internal controls",
      ["aws.security.s3_encryption", "aws.compliance.sox", "azure.security.storage_encryption"]⟩),
    ("SOX-ITGC",
     ⟨"IT General Controls",
      "IT controls supporting financial reporting systems",
      ["aws.security.kms_encryption", "aws.compliance.sox", "aws.tagging.required_tags"]⟩)]⟩

/-- The `"pci"` entry of `FRAMEWORK_CONTROLS` (source lines 110–165). -/
def pciFramework : Framework :=
  ⟨"PCI DSS", "Payment Card Industry Data Security Standard",
   [("PCI-REQ-1",
     ⟨"Install and Maintain Firewall Configuration",
      "Protect cardholder data with firewall and router configuration",
      ["aws.security.ec2_security_groups", "azure.security.network_security"]⟩),
    ("PCI-REQ-2",
     ⟨"Do Not Use Vendor-Supplied Defaults",
      "Change default passwords and security parameters",
      ["aws.compliance.pci_dss"]⟩),
    ("PCI-REQ-3",
     ⟨"Protect Stored Cardholder Data",
      "Encrypt transmission of cardholder data",
      ["aws.security.s3_encryption", "aws.security.kms_encryption",
       "azure.security.storage_encryption", "aws.compliance.pci_dss"]⟩),
    ("PCI-REQ-7",
     ⟨"Restrict Access by Business Need-to-Know",
      "Limit access to cardholder data by business need to know",
      ["aws.security.s3_public_access", "aws.security.iam_mfa", "aws.compliance.pci_dss"]⟩),
    ("PCI-REQ-8",
     ⟨"Identify and Authenticate Access",
      "Assign unique ID to each person with computer access",
      ["aws.security.iam_mfa", "aws.compliance.pci_dss"]⟩),
    ("PCI-REQ-10",
     ⟨"Track and Monitor Access",
      "Track and monitor all access to network resources and cardholder data",
      ["aws.compliance.pci_dss", "aws.compliance.sox"]⟩)]⟩

/-- The `"ffiec"` entry of `FRAMEWORK_CONTROLS` (source lines 166–212). -/
def ffiecFramework : Framework :=
  ⟨"FFIEC Cybersecurity Assessment",
   "Federal Financial Institutions Examination Council - Cybersecurity maturity",
   [("FFIEC-D1",
     ⟨"Cyber Risk Management and Oversight", "Establish cybersecurity governance",
      ["aws.tagging.required_tags", "aws.compliance.ffiec"]⟩),
    ("FFIEC-D2",
     ⟨"Threat Intelligence and Collaboration", "Monitor and respond to cyber threats",
      ["aws.compliance.ffiec"]⟩),
    ("FFIEC-D3",
     ⟨"Cybersecurity Controls", "Implement preventative and detective controls",
      ["aws.security.s3_encryption", "aws.security.kms_encryption",
       "aws.security.ec2_security_groups", "azure.security.storage_encryption",
       "azure.security.network_security", "aws.compliance.ffiec"]⟩),
    ("FFIEC-D4",
     ⟨"External Dependency Management", "Manage third-party and supply chain risks",
      ["aws.compliance.ffiec"]⟩),
    ("FFIEC-D5",
     ⟨"Cyber Incident Management and Resilience",
      "Detect, respond, and recover from incidents",
      ["aws.compliance.ffiec"]⟩)]⟩

/-- The `"glba"` entry of `FRAMEWORK_CONTROLS` (source lines 213–265). -/
def glbaFramework : Framework :=
  ⟨"GLBA",
   "Gramm-Leach-Bliley Act - Financial privacy and consumer data protection (Updated for 2023 FTC Final Rule and 2024 Breach Notification Rule)",
   [("GLBA-SAFEGUARDS",
     ⟨"Safeguards Rule - Data Protection",
      "Administrative, technical, and physical safeguards to protect nonpublic personal information (NPI)",
      ["aws.compliance.glba", "aws.security.s3_encryption", "aws.security.kms_encryption",
       "azure.security.storage_encryption"]⟩),
    ("GLBA-ACCESS",
     ⟨"Access Control - Limit NPI Access",
      "Limit access to customer information to authorized personnel only",
      ["aws.compliance.glba", "aws.security.s3_public_access", "aws.security.iam_mfa",
       "aws.security.ec2_security_groups", "azure.security.key_vault",
       "azure.security.network_security"]⟩),
    ("GLBA-MONITORING",
     ⟨"Security Monitoring - Continuous Oversight",
      "Monitor systems, detect unauthorized access, and adapt to emerging threats",
      ["aws.compliance.glba", "aws.compliance.sox", "aws.compliance.ffiec"]⟩),
    ("GLBA-VENDOR",
     ⟨"Third-Party Oversight - Cloud/Hybrid Security",
      "Ensure cloud service providers maintain adequate data protection controls",
      ["aws.compliance.glba", "aws.tagging.required_tags"]⟩),
    ("GLBA-BREACH",
     ⟨"Breach Notification - 30-Day Requirement",
      "Report data breaches affecting 500+ customers within 30 days (2024 FTC Rule)",
      ["aws.compliance.glba", "aws.compliance.sox"]⟩)]⟩

/-- The static registry `FRAMEWORK_CONTROLS` (source lines 76–266), in
its insertion order. -/
def FRAMEWORK_CONTROLS : List (String × Framework) :=
  [("sox", soxFramework), ("pci", pciFramework),
   ("ffiec", ffiecFramework), ("glba", glbaFramework)]

/-- A JSON value as produced by Python's `json.load`: `obj` is a dict in
insertion order with unique keys; `num` covers the numeric scalars, whose
exact value never influences the loader's control flow. -/
inductive Json where
  | null
  | bool (b : Bool)
  | num (n : Int)
  | str (s : String)
  | arr (elems : List Json)
  | obj (fields : List (String × Json))
  deriving Repr

/-- Python iteration over a JSON value, as `list(x)` or a `for` loop sees
it: an array yields its elements, a string its characters (one-character
strings), a mapping its keys; `none` models the `TypeError` raised for
any other value. -/
def pyIter : Json → Option (List Json)
  | .arr xs => some xs
  | .str s => some (s.data.map (fun c => Json.str (String.mk [c])))
  | .obj fields => some (fields.map (fun p => Json.str p.1))
  | _ => none

/-- One conftest `result` in `load_violations` (source line 291):
`result.get("failures", [])` needs a mapping — `none` models the
`AttributeError` otherwise — and the result is then iterated. -/
def resultFailures : Json → Option (List Json)
  | .obj fields => pyIter ((fields.lookup "failures").getD (.arr []))
  | _ => none

/-- The violation one conftest `failure` contributes (source lines
292–293): its `"msg"` value when that value is itself a mapping, nothing
otherwise. -/
def msgOfFailure : Json → Option Json
  | .obj fields =>
    match fields.lookup "msg" with
    | some (.obj m) => some (.obj m)
    | _ => none
  | _ => none

/-- One conftest `failure` as the loop sees it: `failure.get("msg")`
needs a mapping (`none` = `AttributeError`); a mapping-valued `"msg"` is
one violation, anything else is silently skipped. -/
def failureMsg : Json → Option (Option Json)
  | .obj fields =>
    match fields.lookup "msg" with
    | some (.obj m) => some (some (.obj m))
    | _ => some none
  | _ => none

/-- The conftest branch of `load_violations` (source lines 288–294):
collect the mapping-valued `"msg"` entries of every failure of every
result, in order; `none` models any exception raised inside the loop,
which the enclosing `try` turns into the empty list. -/
def conftestViolations (results : Json) : Option (List Json) :=
  (pyIter results).bind (fun rs =>
    rs.foldlM (fun acc r =>
      (resultFailures r).bind (fun fs =>
        (fs.mapM failureMsg).map (fun msgs => acc ++ msgs.filterMap id))) [])

/-- The violations a well-formed conftest result contributes: the
mapping-valued `"msg"` of each of its failures, the rest skipped. -/
def resultMsgs (r : Json) : List Json :=
  match r with
  | .obj rf =>
    match (rf.lookup "failures").getD (.arr []) with
    | .arr fs => fs.filterMap msgOfFailure
    | _ => []
  | _ => []

/-- `load_violations` after a successful `json.load` (source lines
281–301).  A mapping with `"violations"` returns that value verbatim
(whatever its shape); `"deny"` is passed through `list(...)`, i.e. Python
iteration; `"results"` goes through the conftest extraction; a bare array
is returned verbatim; everything else — including any exception, caught
by the enclosing `try/except` which prints to stderr — yields the empty
list. -/
def load_violations (data : Json) : Json :=
  match data with
  | .obj fields =>
    match fields.lookup "violations" with
    | some v => v
    | none =>
      match fields.lookup "deny" with
      | some d =>
        match pyIter d with
        | some xs => .arr xs
        | none => .arr []
      | none =>
        match fields.lookup "results" with
        | some rs =>
          match conftestViolations rs with
          | some vs => .arr vs
          | none => .arr []
        | none => .arr []
  | .arr xs => .arr xs
  | _ => .arr []

/-- Insert-or-increment on the association-list model of a Python dict:
`counts[key] = counts.get(key, 0) + 1` updates the key in place or
appends a fresh key, preserving insertion order. -/
def bumpCount : List (String × Nat) → String → List (String × Nat)
  | [], k => [(k, 1)]
  | (k', n) :: rest, k =>
    if k' = k then (k', n + 1) :: rest else (k', n) :: bumpCount rest k

/-- `counts.get(key, 0)` on the association-list model of a dict. -/
def getCount : List (String × Nat) → String → Nat
  | [], _ => 0
  | (k', n) :: rest, k => if k' = k then n else getCount rest k

/-- The sum of all counter values of a dict of counts. -/
def sumCounts (m : List (String × Nat)) : Nat :=
  (m.map (fun p => p.2)).sum

/-- The effective severity the generators read:
`violation.get("severity", "UNKNOWN")`. -/
def severityOf (v : Violation) : String :=
  v.severity.getD "UNKNOWN"

/-- The summary dict of `JSONReportGenerator._generate_summary`
(json_report.py lines 49–83). -/
structure JsonSummary where
  total_violations : Nat
  by_severity : List (String × Nat)
  by_policy : List (String × Nat)
  by_cloud : List (String × Nat)
  deriving DecidableEq, Repr

/-- The counting loop of `JSONReportGenerator._generate_summary`
(json_report.py lines 63–76), threading the three count dicts. -/
def jsonSummaryLoop : List Violation → List (String × Nat) → List (String × Nat) →
    List (String × Nat) →
    List (String × Nat) × List (String × Nat) × List (String × Nat)
  | [], by_severity, by_policy, by_cloud => (by_severity, by_policy, by_cloud)
  | v :: rest, by_severity, by_policy, by_cloud =>
    let severity := v.severity.getD "UNKNOWN"
    let by_severity := bumpCount by_severity severity
    let policy := v.policy.getD "unknown"
    let by_policy := bumpCount by_policy policy
    let by_cloud :=
      if strStartsWith policy "aws." then bumpCount by_cloud "AWS"
      else if strStartsWith policy "azure." then bumpCount by_cloud "Azure"
      else by_cloud
    jsonSummaryLoop rest by_severity by_policy by_cloud

/-- `JSONReportGenerator._generate_summary`: the early return for an
empty list, otherwise the three count dicts from the loop. -/
def json_generate_summary (violations : List Violation) : JsonSummary :=
  if violations.isEmpty then ⟨0, [], [], []⟩
  else
    ⟨violations.length,
     (jsonSummaryLoop violations [] [] []).1,
     (jsonSummaryLoop violations [] [] []).2.1,
     (jsonSummaryLoop violations [] [] []).2.2⟩

/-- The summary dict of `HTMLReportGenerator._generate_summary`
(html_report.py lines 55–98): only the four canonical severity counters
are returned, read back with `severity_counts.get(key, 0)`. -/
structure HtmlSummary where
  total : Nat
  critical : Nat
  high : Nat
  medium : Nat
  low : Nat
  by_cloud : List (String × Nat)
  by_category : List (String × Nat)
  deriving DecidableEq, Repr

/-- Python `policy.split(".")` on the character list, keeping empty
pieces (`splitDot` lifts it to strings). -/
def splitDotAux : List Char → List Char → List String
  | [], acc => [String.mk acc.reverse]
  | c :: rest, acc =>
    if c = '.' then String.mk acc.reverse :: splitDotAux rest []
    else splitDotAux rest (c :: acc)

/-- Python `policy.split(".")`. -/
def splitDot (s : String) : List String :=
  splitDotAux s.data []

/-- The counting loop of `HTMLReportGenerator._generate_summary`
(html_report.py lines 72–88): the severity counter starts from the four
canonical keys, the cloud and category counters are filled only for
`aws.`/`azure.` policies with more than two dot-separated parts. -/
def htmlSummaryLoop : List Violation → List (String × Nat) → List (String × Nat) →
    List (String × Nat) →
    List (String × Nat) × List (String × Nat) × List (String × Nat)
  | [], severity_counts, cloud_counts, category_counts =>
    (severity_counts, cloud_counts, category_counts)
  | v :: rest, severity_counts, cloud_counts, category_counts =>
    let severity := v.severity.getD "UNKNOWN"
    let severity_counts := bumpCount severity_counts severity
    let policy := v.policy.getD ""
    if strStartsWith policy "aws." then
      let cloud_counts := bumpCount cloud_counts "AWS"
      let parts := splitDot policy
      let category_counts :=
        if 2 < parts.length then bumpCount category_counts ((parts.get? 1).getD "")
        else category_counts
      htmlSummaryLoop rest severity_counts cloud_counts category_counts
    else if strStartsWith policy "azure." then
      let cloud_counts := bumpCount cloud_counts "Azure"
      let parts := splitDot policy
      let category_counts :=
        if 2 < parts.length then bumpCount category_counts ((parts.get? 1).getD "")
        else category_counts
      htmlSummaryLoop rest severity_counts cloud_counts category_counts
    else
      htmlSummaryLoop rest severity_counts cloud_counts category_counts

/-- `HTMLReportGenerator._generate_summary`: the early return for an
empty list, otherwise the totals with the four canonical severity
counters read back out of the loop's severity dict — any other severity
key the loop tallied is dropped here. -/
def html_generate_summary (violations : List Violation) : HtmlSummary :=
  if violations.isEmpty then ⟨0, 0, 0, 0, 0, [], []⟩
  else
    ⟨violations.length,
     getCount (htmlSummaryLoop violations
       [("CRITICAL", 0), ("HIGH", 0), ("MEDIUM", 0), ("LOW", 0)] [] []).1 "CRITICAL",
     getCount (htmlSummaryLoop violations
       [("CRITICAL", 0), ("HIGH", 0), ("MEDIUM", 0), ("LOW", 0)] [] []).1 "HIGH",
     getCount (htmlSummaryLoop violations
       [("CRITICAL", 0), ("HIGH", 0), ("MEDIUM", 0), ("LOW", 0)] [] []).1 "MEDIUM",
     getCount (htmlSummaryLoop violations
       [("CRITICAL", 0), ("HIGH", 0), ("MEDIUM", 0), ("LOW", 0)] [] []).1 "LOW",
     (htmlSummaryLoop violations
       [("CRITICAL", 0), ("HIGH", 0), ("MEDIUM", 0), ("LOW", 0)] [] []).2.1,
     (htmlSummaryLoop violations
       [("CRITICAL", 0), ("HIGH", 0), ("MEDIUM", 0), ("LOW", 0)] [] []).2.2⟩

/-- The `grouped` dict of `HTMLReportGenerator._group_violations`
(html_report.py lines 100–111), with its four fixed keys. -/
structure GroupedViolations where
  critical : List Violation
  high : List Violation
  medium : List Violation
  low : List Violation
  deriving DecidableEq, Repr

/-- The loop of `_group_violations`: severity defaults to `"UNKNOWN"`; a
severity that is one of the four keys of `grouped` appends the violation
there, anything else appends it to the MEDIUM group. -/
def groupLoop (g : GroupedViolations) : List Violation → GroupedViolations
  | [] => g
  | v :: rest =>
    let severity := v.severity.getD "UNKNOWN"
    if severity = "CRITICAL" then
      groupLoop { g with critical := g.critical ++ [v] } rest
    else if severity = "HIGH" then
      groupLoop { g with high := g.high ++ [v] } rest
    else if severity = "MEDIUM" then
      groupLoop { g with medium := g.medium ++ [v] } rest
    else if severity = "LOW" then
      groupLoop { g with low := g.low ++ [v] } rest
    else
      groupLoop { g with medium := g.medium ++ [v] } rest

/-- `HTMLReportGenerator._group_violations`. -/
def group_violations (violations : List Violation) : GroupedViolations :=
  groupLoop ⟨[], [], [], []⟩ violations

/-- Outcome of a CLI run, as far as the error-handling contract is
concerned: process exit code, whether anything went to the error stream,
and the number of report files written. -/
structure CliOutcome where
  exitCode : Nat
  errReported : Bool
  filesWritten : Nat
  deriving DecidableEq, Repr

/-- `failure.get("msg", {}).get(key, dflt)` from `cli.py` lines 75–80:
needs `failure` to be a mapping and its (defaulted) `"msg"` to be a
mapping; `none` models the uncaught `AttributeError` otherwise. -/
def cliMsgGet (failure : Json) (key : String) (dflt : Json) : Option Json :=
  match failure with
  | .obj ff =>
    match (ff.lookup "msg").getD (.obj []) with
    | .obj mf => some ((mf.lookup key).getD dflt)
    | _ => none
  | _ => none

/-- The violation dict `cli.py generate` appends per failure (lines
74–81), with its six defaulted fields. -/
def cliFailureViolation (failure : Json) : Option Json := do
  let p ← cliMsgGet failure "policy" (.str "unknown")
  let r ← cliMsgGet failure "resource" (.str "unknown")
  let s ← cliMsgGet failure "severity" (.str "MEDIUM")
  let m ← cliMsgGet failure "message" (.str "")
  let rem ← cliMsgGet failure "remediation" (.str "")
  let comp ← cliMsgGet failure "compliance" (.str "")
  pure (Json.obj [("policy", p), ("resource", r), ("severity", s), ("message", m),
                  ("remediation", rem), ("compliance", comp)])

/-- The violation extraction of `cli.py generate` (lines 67–84): the
conftest `"results"` shape is flattened into defaulted violation dicts,
the `"deny"` value is iterated as-is, any other input gives no
violations.  `none` models an uncaught exception, which aborts the
process before any report is written. -/
def cliExtractViolations (data : Json) : Option (List Json) :=
  match data with
  | .obj fields =>
    match fields.lookup "results" with
    | some rs =>
      (pyIter rs).bind (fun results =>
        results.foldlM (fun acc r =>
          match r with
          | .obj rf =>
            (pyIter ((rf.lookup "failures").getD (.arr []))).bind (fun fs =>
              (fs.mapM cliFailureViolation).map (fun vs => acc ++ vs))
          | _ => none) [])
    | none =>
      match fields.lookup "deny" with
      | some d => pyIter d
      | none => some []
  | _ => some []

/-- The `generate` command of `cli.py` fed the outcome of `json.load`
(lines 56–65): a parse error is echoed to stderr and exits 1 before any
report is generated; on success each selected format writes one report
file and the command exits 0. -/
def generateCommand (parsed : Except String Json) (formats : List String) : CliOutcome :=
  match parsed with
  | .error _ => ⟨1, true, 0⟩
  | .ok data =>
    match cliExtractViolations data with
    | none => ⟨1, true, 0⟩
    | some _ =>
      ⟨0, false,
       (if formats.contains "html" then 1 else 0)
         + (if formats.contains "json" then 1 else 0)
         + (if formats.contains "csv" then 1 else 0)⟩

/-- One optional string field of a violation mapping.  The evaluator only
reads the `policy`, `severity` and `message` keys, and every documented
input shape carries them as strings; the model covers exactly those. -/
def strField (fields : List (String × Json)) (k : String) : Option String :=
  match fields.lookup k with
  | some (.str s) => some s
  | _ => none

/-- A violation mapping as the canonical record; `none` for a non-mapping
entry, which would crash the Python evaluator mid-run. -/
def asViolation : Json → Option Violation
  | .obj fields =>
    some ⟨strField fields "policy", strField fields "severity", strField fields "message"⟩
  | _ => none

/-- Outcome of running `compliance_report.py main` on an existing input
file: exit code, whether anything was printed to stderr, and whether the
output report file was written. -/
structure ComplianceRunOutcome where
  exitCode : Nat
  errReported : Bool
  outputWritten : Bool
  deriving DecidableEq, Repr

/-- `compliance_report.py main` reached with an existing input file
(lines 623–688 through `generate_report`).  A JSON syntax error is caught
inside `load_violations` (lines 299–301): it prints to stderr, returns
the empty list, and the run continues — the report is written and the
process exits 0.  An unknown framework raises `ValueError` out of `main`:
nonzero exit, no output file.  A `"violations"` value that is not an
array, or an entry that is not a mapping, likewise crashes the run before
any output. -/
def complianceReportMain (parsed : Except String Json) (framework_name : String) :
    ComplianceRunOutcome :=
  let loadErr := match parsed with | .error _ => true | .ok _ => false
  let loaded : Json :=
    match parsed with
    | .error _ => .arr []
    | .ok data => load_violations data
  match loaded with
  | .arr vs =>
    match vs.mapM asViolation with
    | some violations =>
      match evaluate_framework FRAMEWORK_CONTROLS framework_name violations with
      | .ok _ => ⟨0, loadErr, true⟩
      | .error _ => ⟨1, true, false⟩
    | none => ⟨1, true, false⟩
  | _ => ⟨1, true, false⟩

end PolicyAsCode

namespace PolicyAsCode

/-- C1: status and score of `_evaluate_control` are the exact three-bucket
step function of the matched-violation count — 0 matches give PASS with
score 100, 1 or 2 matches give PARTIAL with score 65, 3 or more give FAIL
with score 25, and no score other than 100, 65, 25 ever occurs. -/
theorem evaluate_control_step_function (control_id : String) (c : Control)
    (violations : List Violation) :
    let n := (mappedViolations c violations).length
    let r := evaluate_control control_id c violations
    (n = 0 → r.status = "PASS" ∧ r.score = 100) ∧
    (1 ≤ n ∧ n ≤ 2 → r.status = "PARTIAL" ∧ r.score = 65) ∧
    (3 ≤ n → r.status = "FAIL" ∧ r.score = 25) ∧
    (r.score = 100 ∨ r.score = 65 ∨ r.score = 25) := by
  simp only [evaluate_control]
  rcases Nat.eq_zero_or_pos (mappedViolations c violations).length with h0 | hpos
  · simp [h0]
  · rcases Nat.lt_or_ge (mappedViolations c violations).length 3 with hlt | hge
    · have h2 : (mappedViolations c violations).length ≤ 2 := by omega
      refine ⟨fun h => by omega, fun _ => ?_, fun h => by omega, ?_⟩ <;>
        simp [Nat.pos_iff_ne_zero.mp hpos, h2]
    · have hne : ¬ (mappedViolations c violations).length = 0 := by omega
      have h2 : ¬ (mappedViolations c violations).length ≤ 2 := by omega
      refine ⟨fun h => absurd h hne, fun h => by omega, fun _ => ?_, ?_⟩ <;>
        simp [hne, h2]

/-- C1 witness: a concrete control matched by zero, two and three
violations exercises each bucket. -/
theorem evaluate_control_step_function_witness :
    let c : Control := ⟨"t", "d", ["aws.security."]⟩
    let v : Violation := ⟨some "aws.security.iam_mfa", none, none⟩
    (mappedViolations c []).length = 0 ∧
    (evaluate_control "X" c []).status = "PASS" ∧
    (evaluate_control "X" c []).score = 100 ∧
    (1 ≤ (mappedViolations c [v, v]).length ∧ (mappedViolations c [v, v]).length ≤ 2) ∧
    (evaluate_control "X" c [v, v]).status = "PARTIAL" ∧
    (evaluate_control "X" c [v, v]).score = 65 ∧
    3 ≤ (mappedViolations c [v, v, v]).length ∧
    (evaluate_control "X" c [v, v, v]).status = "FAIL" ∧
    (evaluate_control "X" c [v, v, v]).score = 25 := by
  refine ⟨by decide, ?_, ?_, by decide, ?_, ?_, by decide, ?_, ?_⟩
  · exact ((evaluate_control_step_function "X" ⟨"t", "d", ["aws.security."]⟩ []).1
      (by decide)).1
  · exact ((evaluate_control_step_function "X" ⟨"t", "d", ["aws.security."]⟩ []).1
      (by decide)).2
  · exact ((evaluate_control_step_function "X" _
      [⟨some "aws.security.iam_mfa", none, none⟩, ⟨some "aws.security.iam_mfa", none, none⟩]).2.1
      (by decide)).1
  · exact ((evaluate_control_step_function "X" _
      [⟨some "aws.security.iam_mfa", none, none⟩, ⟨some "aws.security.iam_mfa", none, none⟩]).2.1
      (by decide)).2
  · exact ((evaluate_control_step_function "X" _
      [⟨some "aws.security.iam_mfa", none, none⟩, ⟨some "aws.security.iam_mfa", none, none⟩,
       ⟨some "aws.security.iam_mfa", none, none⟩]).2.2.1 (by decide)).1
  · exact ((evaluate_control_step_function "X" _
      [⟨some "aws.security.iam_mfa", none, none⟩, ⟨some "aws.security.iam_mfa", none, none⟩,
       ⟨some "aws.security.iam_mfa", none, none⟩]).2.2.1 (by decide)).2

end PolicyAsCode

namespace PolicyAsCode

/-- C2: a violation is in a control's matched list exactly when it occurs
in the input and its policy field (empty string when missing) starts with
one of the control's policy_mappings entries; matching against one
control never hides a violation from another control. -/
theorem violation_matching_characterization (c : Control) (v : Violation)
    (violations : List Violation) :
    (v ∈ mappedViolations c violations ↔
       v ∈ violations ∧
         ∃ m ∈ c.policy_mappings, strStartsWith (v.policy.getD "") m = true) ∧
    (∀ c' : Control, v ∈ mappedViolations c violations →
       matchesControl c' v = true → v ∈ mappedViolations c' violations) := by
  constructor
  · simp [mappedViolations, List.mem_filter, matchesControl, List.any_eq_true]
  · intro c' hv hm
    simp only [mappedViolations, List.mem_filter] at hv ⊢
    exact ⟨hv.1, hm⟩

/-- C2 witness: one violation matched independently by two controls whose
policy_mappings lists share no entry. -/
theorem violation_matching_characterization_witness :
    (⟨some "aws.security.iam_mfa", none, none⟩ : Violation) ∈
        mappedViolations ⟨"t1", "d", ["aws.security."]⟩
          [⟨some "aws.security.iam_mfa", none, none⟩] ∧
    matchesControl ⟨"t2", "d", ["aws."]⟩ ⟨some "aws.security.iam_mfa", none, none⟩ = true ∧
    (⟨some "aws.security.iam_mfa", none, none⟩ : Violation) ∈
        mappedViolations ⟨"t2", "d", ["aws."]⟩
          [⟨some "aws.security.iam_mfa", none, none⟩] := by
  refine ⟨by decide, by decide, ?_⟩
  exact (violation_matching_characterization ⟨"t1", "d", ["aws.security."]⟩
      ⟨some "aws.security.iam_mfa", none, none⟩
      [⟨some "aws.security.iam_mfa", none, none⟩]).2
    ⟨"t2", "d", ["aws."]⟩ (by decide) (by decide)

/-- Splitting a list by a predicate, its complement restricted by a second
predicate, and the rest accounts for every element exactly once. -/
theorem filter_partition_length {α : Type} (l : List α) (p q : α → Bool) :
    (l.filter p).length + (l.filter (fun x => !(p x) && q x)).length
      + (l.filter (fun x => !(p x) && !(q x))).length = l.length := by
  induction l with
  | nil => simp
  | cons x xs ih =>
    by_cases hp : p x <;> by_cases hq : q x <;>
      simp [List.filter_cons, hp, hq] <;> omega

/-- C3: for every registered framework the three status counters of the
framework result sum to the framework's control count — the `if/elif/else`
cascade in `evaluate_framework` sends each control result to exactly one
counter. -/
theorem framework_counts_sum (name : String) (fw : Framework)
    (violations : List Violation)
    (h : FRAMEWORK_CONTROLS.lookup name = some fw) :
    evaluate_framework FRAMEWORK_CONTROLS name violations
        = .ok (frameworkResult fw violations) ∧
    (frameworkResult fw violations).pass_count
        + (frameworkResult fw violations).partial_count
        + (frameworkResult fw violations).fail_count = fw.controls.length := by
  refine ⟨by simp [evaluate_framework, h], ?_⟩
  simp only [frameworkResult]
  have := filter_partition_length
    (fw.controls.map (fun c => evaluate_control c.1 c.2 violations))
    (fun r => r.status == "PASS") (fun r => r.status == "PARTIAL")
  simpa using this

/-- C3 witness: the SOX framework evaluated on the empty violation list
has counters summing to its three controls. -/
theorem framework_counts_sum_witness :
    FRAMEWORK_CONTROLS.lookup "sox" = some soxFramework ∧
    (frameworkResult soxFramework []).pass_count
        + (frameworkResult soxFramework []).partial_count
        + (frameworkResult soxFramework []).fail_count
      = soxFramework.controls.length :=
  ⟨by decide, (framework_counts_sum "sox" soxFramework [] (by decide)).2⟩

end PolicyAsCode

namespace PolicyAsCode

/-- The three score constants are the only scores `_evaluate_control` can
produce. -/
theorem evaluate_control_score_cases (control_id : String) (c : Control)
    (violations : List Violation) :
    (evaluate_control control_id c violations).score = 100 ∨
    (evaluate_control control_id c violations).score = 65 ∨
    (evaluate_control control_id c violations).score = 25 := by
  simp only [evaluate_control]
  split
  · simp
  · split <;> simp

/-- Half-even rounding never goes below the floor of a nonnegative
input. -/
theorem roundHalfEven_nonneg (x : ℚ) (h0 : 0 ≤ x) : 0 ≤ roundHalfEven x := by
  have hf0 : (0 : ℤ) ≤ ⌊x⌋ := Int.floor_nonneg.mpr h0
  unfold roundHalfEven
  split
  · exact hf0
  · split
    · omega
    · split
      · exact hf0
      · omega

/-- Half-even rounding never exceeds an integer upper bound of the
input. -/
theorem roundHalfEven_le (x : ℚ) (b : ℤ) (hb : x ≤ (b : ℚ)) :
    roundHalfEven x ≤ b := by
  have hfb : ⌊x⌋ ≤ b := by
    have h := Int.floor_le_floor hb
    simpa using h
  unfold roundHalfEven
  split
  · exact hfb
  next h =>
    have hhalf : (1 : ℚ) / 2 ≤ x - ⌊x⌋ := le_of_not_lt h
    have hlt : (⌊x⌋ : ℚ) < x := by linarith
    have hltb : ⌊x⌋ < b := by
      have hc : (⌊x⌋ : ℚ) < (b : ℚ) := lt_of_lt_of_le hlt hb
      exact_mod_cast hc
    split
    · omega
    · split
      · exact hfb
      · omega

/-- One-decimal rounding keeps nonnegative rationals nonnegative. -/
theorem round1_nonneg (q : ℚ) (h0 : 0 ≤ q) : 0 ≤ round1 q := by
  unfold round1
  have h : (0 : ℤ) ≤ roundHalfEven (q * 10) :=
    roundHalfEven_nonneg _ (by linarith)
  have hc : (0 : ℚ) ≤ (roundHalfEven (q * 10) : ℚ) := by exact_mod_cast h
  linarith [div_nonneg hc (by norm_num : (0 : ℚ) ≤ 10)]

/-- One-decimal rounding keeps rationals at most 100 at most 100. -/
theorem round1_le_100 (q : ℚ) (h : q ≤ 100) : round1 q ≤ 100 := by
  unfold round1
  have h10 : q * 10 ≤ ((1000 : ℤ) : ℚ) := by push_cast; linarith
  have hb := roundHalfEven_le (q * 10) 1000 h10
  have hc : ((roundHalfEven (q * 10)) : ℚ) ≤ 1000 := by exact_mod_cast hb
  linarith

/-- A list of rationals bounded by 100 has sum at most 100 times its
length. -/
theorem list_sum_le_hundred (l : List ℚ) (h : ∀ x ∈ l, x ≤ 100) :
    l.sum ≤ 100 * l.length := by
  induction l with
  | nil => simp
  | cons a t ih =>
    simp only [List.sum_cons, List.length_cons]
    have ha := h a (by simp)
    have ht := ih (fun x hx => h x (by simp [hx]))
    push_cast
    linarith

/-- A list of nonnegative rationals has nonnegative sum. -/
theorem list_sum_nonneg (l : List ℚ) (h : ∀ x ∈ l, 0 ≤ x) : 0 ≤ l.sum := by
  induction l with
  | nil => simp
  | cons a t ih =>
    simp only [List.sum_cons]
    have ha := h a (by simp)
    have ht := ih (fun x hx => h x (by simp [hx]))
    linarith

/-- C4: for every registered framework the overall score is the one-decimal
half-even rounding of the mean control score, a framework with no controls
keeps the initial score 0 without dividing, and the score always lies in
[0, 100]. -/
theorem overall_score_rounded_mean_bounds (name : String) (fw : Framework)
    (violations : List Violation)
    (h : FRAMEWORK_CONTROLS.lookup name = some fw) :
    evaluate_framework FRAMEWORK_CONTROLS name violations
        = .ok (frameworkResult fw violations) ∧
    (fw.controls.length = 0 → (frameworkResult fw violations).overall_score = 0) ∧
    (fw.controls.length ≠ 0 →
       (frameworkResult fw violations).overall_score =
         round1 ((((frameworkResult fw violations).controls.map
             (fun c => (c.score : ℚ))).sum) /
           ((frameworkResult fw violations).controls.length : ℚ))) ∧
    0 ≤ (frameworkResult fw violations).overall_score ∧
    (frameworkResult fw violations).overall_score ≤ 100 := by
  refine ⟨by simp [evaluate_framework, h], ?_, ?_, ?_, ?_⟩ <;>
    simp only [frameworkResult, List.length_map]
  · intro hz; simp [List.eq_nil_of_length_eq_zero hz]
  · intro hnz
    rw [if_neg (by simpa using hnz)]
  · split
    · norm_num
    · next hnz =>
      apply round1_nonneg
      apply div_nonneg
      · apply list_sum_nonneg
        intro x hx
        rcases List.mem_map.mp hx with ⟨r, _, rfl⟩
        positivity
      · positivity
  · split
    · norm_num
    · next hnz =>
      apply round1_le_100
      set l := (fw.controls.map (fun c => evaluate_control c.1 c.2 violations)).map
        (fun r => (r.score : ℚ)) with hl
      have hlen : l.length = fw.controls.length := by simp [hl]
      have hpos : (0 : ℚ) < (fw.controls.length : ℚ) := by
        have hne : fw.controls.length ≠ 0 := by simpa using hnz
        exact_mod_cast Nat.pos_of_ne_zero hne
      rw [div_le_iff₀ hpos]
      have hb : ∀ x ∈ l, x ≤ 100 := by
        intro x hx
        rcases List.mem_map.mp hx with ⟨r, hr, rfl⟩
        rcases List.mem_map.mp hr with ⟨c, _, rfl⟩
        rcases evaluate_control_score_cases c.1 c.2 violations with hc | hc | hc <;>
          rw [hc] <;> norm_num
      have hle := list_sum_le_hundred l hb
      rw [hlen] at hle
      exact hle
      
/-- C4 witness: the SOX framework on three matching violations scores
round((25 + 100 + 100) / 3, 1) = 75.0, inside [0, 100]. -/
theorem overall_score_rounded_mean_bounds_witness :
    FRAMEWORK_CONTROLS.lookup "sox" = some soxFramework ∧
    (0 ≤ (frameworkResult soxFramework
        [⟨some "aws.security.s3_encryption", some "HIGH", some "m"⟩,
         ⟨some "aws.security.s3_encryption", some "HIGH", some "m"⟩,
         ⟨some "aws.security.s3_encryption", some "HIGH", some "m"⟩]).overall_score ∧
     (frameworkResult soxFramework
        [⟨some "aws.security.s3_encryption", some "HIGH", some "m"⟩,
         ⟨some "aws.security.s3_encryption", some "HIGH", some "m"⟩,
         ⟨some "aws.security.s3_encryption", some "HIGH", some "m"⟩]).overall_score ≤ 100) :=
  ⟨by decide,
   (overall_score_rounded_mean_bounds "sox" soxFramework
      [⟨some "aws.security.s3_encryption", some "HIGH", some "m"⟩,
       ⟨some "aws.security.s3_encryption", some "HIGH", some "m"⟩,
       ⟨some "aws.security.s3_encryption", some "HIGH", some "m"⟩] (by decide)).2.2.2⟩

end PolicyAsCode

namespace PolicyAsCode

/-- C6: `evaluate_framework` surfaces an unknown-framework error exactly
when the name is not in the registry, and returns a result for every
registered name. -/
theorem evaluate_framework_unknown_error (name : String)
    (violations : List Violation) :
    (FRAMEWORK_CONTROLS.lookup name = none →
       evaluate_framework FRAMEWORK_CONTROLS name violations
         = .error ("Unknown framework: " ++ name)) ∧
    (∀ fw, FRAMEWORK_CONTROLS.lookup name = some fw →
       evaluate_framework FRAMEWORK_CONTROLS name violations
         = .ok (frameworkResult fw violations)) := by
  constructor
  · intro h; simp [evaluate_framework, h]
  · intro fw h; simp [evaluate_framework, h]

/-- C6 witness: the unregistered name `"nist"` errors, the registered
name `"glba"` returns a result. -/
theorem evaluate_framework_unknown_error_witness :
    FRAMEWORK_CONTROLS.lookup "nist" = none ∧
    evaluate_framework FRAMEWORK_CONTROLS "nist" []
      = .error ("Unknown framework: " ++ "nist") ∧
    FRAMEWORK_CONTROLS.lookup "glba" = some glbaFramework ∧
    evaluate_framework FRAMEWORK_CONTROLS "glba" []
      = .ok (frameworkResult glbaFramework []) :=
  ⟨by decide, (evaluate_framework_unknown_error "nist" []).1 (by decide),
   by decide, (evaluate_framework_unknown_error "glba" []).2 glbaFramework (by decide)⟩

/-- C8: a PASS result has no findings and exactly the one evidence string;
a PARTIAL or FAIL result has no evidence and one formatted finding per
matched violation in encounter order. -/
theorem control_result_findings_evidence (control_id : String) (c : Control)
    (violations : List Violation) :
    ((evaluate_control control_id c violations).status = "PASS" →
       (evaluate_control control_id c violations).findings = [] ∧
       (evaluate_control control_id c violations).evidence
         = ["No policy violations found for this control"]) ∧
    (((evaluate_control control_id c violations).status = "PARTIAL" ∨
        (evaluate_control control_id c violations).status = "FAIL") →
       (evaluate_control control_id c violations).evidence = [] ∧
       (evaluate_control control_id c violations).findings
         = (mappedViolations c violations).map findingLine) := by
  simp only [evaluate_control]
  split
  · simp
  · split <;> simp

/-- C8 witness: a PASS case with the single evidence string, and a
PARTIAL case whose findings are the formatted matched violations with the
MEDIUM and No-message defaults. -/
theorem control_result_findings_evidence_witness :
    ((evaluate_control "X" ⟨"t", "d", ["aws."]⟩ []).status = "PASS" ∧
     (evaluate_control "X" ⟨"t", "d", ["aws."]⟩ []).findings = [] ∧
     (evaluate_control "X" ⟨"t", "d", ["aws."]⟩ []).evidence
        = ["No policy violations found for this control"]) ∧
    ((evaluate_control "X" ⟨"t", "d", ["aws."]⟩
        [⟨some "aws.s3", none, none⟩]).status = "PARTIAL" ∧
     (evaluate_control "X" ⟨"t", "d", ["aws."]⟩
        [⟨some "aws.s3", none, none⟩]).evidence = [] ∧
     (evaluate_control "X" ⟨"t", "d", ["aws."]⟩
        [⟨some "aws.s3", none, none⟩]).findings
        = (mappedViolations ⟨"t", "d", ["aws."]⟩
            [⟨some "aws.s3", none, none⟩]).map findingLine ∧
     (evaluate_control "X" ⟨"t", "d", ["aws."]⟩
        [⟨some "aws.s3", none, none⟩]).findings = ["MEDIUM: No message"]) := by
  refine ⟨⟨by decide, ?_, ?_⟩, ⟨by decide, ?_, ?_, by decide⟩⟩
  · exact ((control_result_findings_evidence "X" ⟨"t", "d", ["aws."]⟩ []).1
      (by decide)).1
  · exact ((control_result_findings_evidence "X" ⟨"t", "d", ["aws."]⟩ []).1
      (by decide)).2
  · exact ((control_result_findings_evidence "X" ⟨"t", "d", ["aws."]⟩
      [⟨some "aws.s3", none, none⟩]).2 (Or.inl (by decide))).1
  · exact ((control_result_findings_evidence "X" ⟨"t", "d", ["aws."]⟩
      [⟨some "aws.s3", none, none⟩]).2 (Or.inl (by decide))).2

end PolicyAsCode

namespace PolicyAsCode

/-- The grouping loop sends each group to its seed followed by the
matching filter of the remaining input, with every severity outside
CRITICAL, HIGH and LOW landing in the MEDIUM group. -/
theorem groupLoop_spec (l : List Violation) (g : GroupedViolations) :
    groupLoop g l =
      ⟨g.critical ++ l.filter (fun v => severityOf v == "CRITICAL"),
       g.high ++ l.filter (fun v => severityOf v == "HIGH"),
       g.medium ++ l.filter (fun v => !(severityOf v == "CRITICAL")
         && !(severityOf v == "HIGH") && !(severityOf v == "LOW")),
       g.low ++ l.filter (fun v => severityOf v == "LOW")⟩ := by
  induction l generalizing g with
  | nil => simp [groupLoop]
  | cons v rest ih =>
    have hsev : v.severity.getD "UNKNOWN" = severityOf v := rfl
    by_cases h1 : severityOf v = "CRITICAL" <;>
      by_cases h2 : severityOf v = "HIGH" <;>
      by_cases h3 : severityOf v = "MEDIUM" <;>
      by_cases h4 : severityOf v = "LOW" <;>
      simp_all [groupLoop, List.filter_cons, ih]

/-- The four severity filters with MEDIUM as the catch-all account for
every element of a list exactly once. -/
theorem severity_filters_length (l : List Violation) :
    (l.filter (fun v => severityOf v == "CRITICAL")).length
      + (l.filter (fun v => severityOf v == "HIGH")).length
      + (l.filter (fun v => !(severityOf v == "CRITICAL")
          && !(severityOf v == "HIGH") && !(severityOf v == "LOW"))).length
      + (l.filter (fun v => severityOf v == "LOW")).length = l.length := by
  induction l with
  | nil => simp
  | cons v rest ih =>
    by_cases h1 : severityOf v = "CRITICAL" <;>
      by_cases h2 : severityOf v = "HIGH" <;>
      by_cases h4 : severityOf v = "LOW" <;>
      simp_all [List.filter_cons] <;> omega

/-- C10: `_group_violations` partitions its input into the four fixed
groups — each group is the order-preserving filter of its severity, every
severity that is missing or not one of the four canonical values lands in
MEDIUM, and the group sizes sum to the input length. -/
theorem group_violations_partition (violations : List Violation) :
    (group_violations violations).critical
        = violations.filter (fun v => severityOf v == "CRITICAL") ∧
    (group_violations violations).high
        = violations.filter (fun v => severityOf v == "HIGH") ∧
    (group_violations violations).low
        = violations.filter (fun v => severityOf v == "LOW") ∧
    (group_violations violations).medium
        = violations.filter (fun v => !(severityOf v == "CRITICAL")
            && !(severityOf v == "HIGH") && !(severityOf v == "LOW")) ∧
    (group_violations violations).critical.length
        + (group_violations violations).high.length
        + (group_violations violations).medium.length
        + (group_violations violations).low.length = violations.length := by
  unfold group_violations
  rw [groupLoop_spec]
  refine ⟨by simp, by simp, by simp, by simp, ?_⟩
  simpa using severity_filters_length violations

end PolicyAsCode

namespace PolicyAsCode

/-- Insert-or-increment grows the total of a count dict by exactly
one. -/
theorem sumCounts_bumpCount (m : List (String × Nat)) (k : String) :
    sumCounts (bumpCount m k) = sumCounts m + 1 := by
  induction m with
  | nil => simp [bumpCount, sumCounts]
  | cons a rest ih =>
    by_cases h : a.1 = k <;> simp [bumpCount, h, sumCounts] <;>
      simp [sumCounts] at ih <;> omega

/-- Reading a key after insert-or-increment: the bumped key gains one,
every other key is untouched. -/
theorem getCount_bumpCount (m : List (String × Nat)) (k k' : String) :
    getCount (bumpCount m k) k' = getCount m k' + (if k = k' then 1 else 0) := by
  induction m with
  | nil => by_cases h : k = k' <;> simp [bumpCount, getCount, h]
  | cons a rest ih =>
    obtain ⟨ak, an⟩ := a
    by_cases h1 : ak = k
    · subst h1
      by_cases h2 : ak = k' <;> simp [bumpCount, getCount, h2]
    · by_cases h2 : ak = k'
      · have hkk : ¬ k = k' := fun hk => h1 (by rw [hk, ← h2])
        have hk2 : ¬ k' = k := fun hk => hkk hk.symm
        simp [bumpCount, getCount, h1, h2, hkk, hk2]
      · simp [bumpCount, getCount, h1, h2, ih]

/-- The JSON summary loop adds one tally to the severity dict per
violation processed. -/
theorem jsonSummaryLoop_severity_total (l : List Violation)
    (bs bp bc : List (String × Nat)) :
    sumCounts (jsonSummaryLoop l bs bp bc).1 = sumCounts bs + l.length := by
  induction l generalizing bs bp bc with
  | nil => simp [jsonSummaryLoop]
  | cons v rest ih =>
    simp only [jsonSummaryLoop]
    rw [ih, sumCounts_bumpCount]
    simp only [List.length_cons]
    omega

/-- The HTML summary loop's severity dict, read at any key, gains the
number of processed violations whose defaulted severity is that key. -/
theorem htmlSummaryLoop_severity_count (l : List Violation)
    (sc cc cat : List (String × Nat)) (k : String) :
    getCount (htmlSummaryLoop l sc cc cat).1 k
      = getCount sc k + (l.filter (fun v => severityOf v == k)).length := by
  induction l generalizing sc cc cat with
  | nil => simp [htmlSummaryLoop]
  | cons v rest ih =>
    have hstep : ∀ cc' cat' : List (String × Nat),
        getCount (htmlSummaryLoop rest (bumpCount sc (v.severity.getD "UNKNOWN"))
            cc' cat').1 k
          = getCount sc k + ((v :: rest).filter (fun v => severityOf v == k)).length := by
      intro cc' cat'
      rw [ih, getCount_bumpCount, List.filter_cons]
      by_cases h : severityOf v = k
      · have hb : (severityOf v == k) = true := by simp [h]
        simp only [hb, if_pos (show v.severity.getD "UNKNOWN" = k from h)]
        simp
        omega
      · have hb : (severityOf v == k) = false := by simp [h]
        simp only [hb, if_neg (show ¬ v.severity.getD "UNKNOWN" = k from h)]
        simp
    simp only [htmlSummaryLoop]
    split
    · exact hstep _ _
    · split
      · exact hstep _ _
      · exact hstep _ _

/-- The four canonical severity filters together pick out exactly the
violations whose defaulted severity is canonical. -/
theorem canonical_severity_filters (l : List Violation) :
    (l.filter (fun v => severityOf v == "CRITICAL")).length
      + (l.filter (fun v => severityOf v == "HIGH")).length
      + (l.filter (fun v => severityOf v == "MEDIUM")).length
      + (l.filter (fun v => severityOf v == "LOW")).length
      = (l.filter (fun v => severityOf v == "CRITICAL" || severityOf v == "HIGH"
          || severityOf v == "MEDIUM" || severityOf v == "LOW")).length := by
  induction l with
  | nil => simp
  | cons v rest ih =>
    by_cases h1 : severityOf v = "CRITICAL" <;>
      by_cases h2 : severityOf v = "HIGH" <;>
      by_cases h3 : severityOf v = "MEDIUM" <;>
      by_cases h4 : severityOf v = "LOW" <;>
      simp_all [List.filter_cons] <;> omega

/-- C9 counterexample: a single violation with severity `"BOGUS"` is
tallied under its literal key inside the HTML summary loop but dropped
from the returned summary, whose four severity counts sum to 0 while the
total is 1. -/
theorem severity_breakdown_counterexample :
    (html_generate_summary [⟨none, some "BOGUS", none⟩]).total = 1 ∧
    (html_generate_summary [⟨none, some "BOGUS", none⟩]).critical
      + (html_generate_summary [⟨none, some "BOGUS", none⟩]).high
      + (html_generate_summary [⟨none, some "BOGUS", none⟩]).medium
      + (html_generate_summary [⟨none, some "BOGUS", none⟩]).low
      ≠ (html_generate_summary [⟨none, some "BOGUS", none⟩]).total := by
  decide

/-- C9 amended: the JSON report's `by_severity` tallies every violation
under its literal (defaulted `"UNKNOWN"`) severity key and its counts sum
to the total violation count; the HTML report's summary exposes only the
four canonical counters, which sum to the number of violations whose
defaulted severity is canonical — fewer than the total when any other
severity value occurs. -/
theorem severity_breakdown_by_generator (violations : List Violation) :
    sumCounts (json_generate_summary violations).by_severity
        = (json_generate_summary violations).total_violations ∧
    sumCounts (json_generate_summary violations).by_severity = violations.length ∧
    (html_generate_summary violations).critical
        + (html_generate_summary violations).high
        + (html_generate_summary violations).medium
        + (html_generate_summary violations).low
      = (violations.filter (fun v => severityOf v == "CRITICAL"
          || severityOf v == "HIGH" || severityOf v == "MEDIUM"
          || severityOf v == "LOW")).length := by
  have hjson : sumCounts (json_generate_summary violations).by_severity
      = violations.length := by
    unfold json_generate_summary
    split
    · next h => simp [sumCounts, List.isEmpty_iff.mp h]
    · have hs := jsonSummaryLoop_severity_total violations [] [] []
      simpa [sumCounts] using hs
  have htotal : (json_generate_summary violations).total_violations
      = violations.length := by
    unfold json_generate_summary
    split
    · next h => simp [List.isEmpty_iff.mp h]
    · simp
  refine ⟨by rw [hjson, htotal], hjson, ?_⟩
  unfold html_generate_summary
  split
  · next h => simp [List.isEmpty_iff.mp h]
  · simp only [htmlSummaryLoop_severity_count]
    rw [← canonical_severity_filters violations]
    simp [getCount]

end PolicyAsCode

namespace PolicyAsCode

/-- Shape of a conftest result on which the extraction loop raises no
exception: a mapping whose defaulted `"failures"` value is an array of
mappings. -/
def WellFormedResult (r : Json) : Prop :=
  ∃ rf fs, r = Json.obj rf ∧
    (rf.lookup "failures").getD (.arr []) = Json.arr fs ∧
    ∀ f ∈ fs, ∃ ff, f = Json.obj ff

/-- On a failure that is a mapping, the loop's msg extraction succeeds
and produces exactly `msgOfFailure`. -/
theorem failureMsg_obj (ff : List (String × Json)) :
    failureMsg (.obj ff) = some (msgOfFailure (.obj ff)) := by
  simp only [failureMsg, msgOfFailure]
  cases hm : ff.lookup "msg" with
  | none => rfl
  | some j => cases j <;> rfl

/-- Over a list of mapping-shaped failures, the monadic msg extraction
succeeds with the pointwise `msgOfFailure` values. -/
theorem mapM_failureMsg (fs : List Json)
    (h : ∀ f ∈ fs, ∃ ff, f = Json.obj ff) :
    fs.mapM failureMsg = some (fs.map msgOfFailure) := by
  induction fs with
  | nil => rfl
  | cons f rest ih =>
    obtain ⟨ff, rfl⟩ := h f (by simp)
    have hrest := ih (fun g hg => h g (by simp [hg]))
    rw [List.mapM_cons, failureMsg_obj, hrest]
    rfl

/-- The conftest fold collects, without an exception, the msg mappings of
every well-formed result in order. -/
theorem conftest_foldlM (results : List Json) (acc : List Json)
    (h : ∀ r ∈ results, WellFormedResult r) :
    results.foldlM (fun acc r =>
        (resultFailures r).bind (fun fs =>
          (fs.mapM failureMsg).map (fun msgs => acc ++ msgs.filterMap id))) acc
      = some (acc ++ results.flatMap resultMsgs) := by
  induction results generalizing acc with
  | nil => simp
  | cons r rest ih =>
    obtain ⟨rf, fs, rfl, hfail, hobj⟩ := h r (by simp)
    have hrf : resultFailures (Json.obj rf) = some fs := by
      simp [resultFailures, hfail, pyIter]
    have hr : resultMsgs (Json.obj rf) = fs.filterMap msgOfFailure := by
      simp [resultMsgs, hfail]
    rw [List.foldlM_cons, hrf]
    show (fs.mapM failureMsg).map (fun msgs => acc ++ msgs.filterMap id) >>= _ = _
    rw [mapM_failureMsg fs hobj]
    show rest.foldlM _ (acc ++ (fs.map msgOfFailure).filterMap id) = _
    rw [List.filterMap_map, ih _ (fun r' hr' => h r' (by simp [hr']))]
    rw [List.flatMap_cons, hr]
    simp [Function.comp_def]

/-- `conftestViolations` on an array of well-formed results. -/
theorem conftestViolations_wellformed (results : List Json)
    (h : ∀ r ∈ results, WellFormedResult r) :
    conftestViolations (.arr results) = some (results.flatMap resultMsgs) := by
  simp only [conftestViolations, pyIter, Option.bind_some]
  simpa using conftest_foldlM results [] h

/-- C5: `load_violations` dispatches in the order violations, deny,
results, bare sequence, and yields the empty list on every other shape;
it is a total function of the parsed value, so no exception escapes. -/
theorem load_violations_dispatch (data : Json) :
    (∀ fields v, data = .obj fields → fields.lookup "violations" = some v →
        load_violations data = v) ∧
    (∀ fields xs, data = .obj fields → fields.lookup "violations" = none →
        fields.lookup "deny" = some (.arr xs) →
        load_violations data = .arr xs) ∧
    (∀ fields results, data = .obj fields → fields.lookup "violations" = none →
        fields.lookup "deny" = none →
        fields.lookup "results" = some (.arr results) →
        (∀ r ∈ results, WellFormedResult r) →
        load_violations data = .arr (results.flatMap resultMsgs)) ∧
    (∀ xs, data = .arr xs → load_violations data = .arr xs) ∧
    (∀ fields, data = .obj fields → fields.lookup "violations" = none →
        fields.lookup "deny" = none → fields.lookup "results" = none →
        load_violations data = .arr []) ∧
    ((∀ fields, data ≠ .obj fields) → (∀ xs, data ≠ .arr xs) →
        load_violations data = .arr []) := by
  refine ⟨?_, ?_, ?_, ?_, ?_, ?_⟩
  · rintro fields v rfl hv
    simp [load_violations, hv]
  · rintro fields xs rfl hv hd
    simp [load_violations, hv, hd, pyIter]
  · rintro fields results rfl hv hd hr hwf
    simp [load_violations, hv, hd, hr, conftestViolations_wellformed results hwf]
  · rintro xs rfl
    simp [load_violations]
  · rintro fields rfl hv hd hr
    simp [load_violations, hv, hd, hr]
  · intro hobj harr
    cases data with
    | obj fields => exact absurd rfl (hobj fields)
    | arr xs => exact absurd rfl (harr xs)
    | null => rfl
    | bool b => rfl
    | num n => rfl
    | str s => rfl

/-- C5 witness: one concrete input per dispatch branch, including a
conftest input whose second failure has a non-mapping msg and is
skipped. -/
theorem load_violations_dispatch_witness :
    load_violations (.obj [("violations", .num 5)]) = .num 5 ∧
    load_violations (.obj [("deny", .arr [.obj [("policy", .str "x")]])])
      = .arr [.obj [("policy", .str "x")]] ∧
    load_violations (.obj [("results", .arr [.obj [("failures", .arr
        [.obj [("msg", .obj [("policy", .str "aws.security.s3_encryption")])],
         .obj [("msg", .str "not a mapping")]])]])])
      = .arr [.obj [("policy", .str "aws.security.s3_encryption")]] ∧
    load_violations (.arr [.num 1, .str "two"]) = .arr [.num 1, .str "two"] ∧
    load_violations (.obj [("other", .null)]) = .arr [] ∧
    load_violations (.str "xyz") = .arr [] := by
  refine ⟨?_, ?_, ?_, ?_, ?_, ?_⟩
  · exact (load_violations_dispatch _).1 [("violations", .num 5)] (.num 5) rfl rfl
  · exact (load_violations_dispatch _).2.1 [("deny", .arr [.obj [("policy", .str "x")]])]
      [.obj [("policy", .str "x")]] rfl rfl rfl
  · exact (load_violations_dispatch _).2.2.1
      [("results", .arr [.obj [("failures", .arr
        [.obj [("msg", .obj [("policy", .str "aws.security.s3_encryption")])],
         .obj [("msg", .str "not a mapping")]])]])]
      [.obj [("failures", .arr
        [.obj [("msg", .obj [("policy", .str "aws.security.s3_encryption")])],
         .obj [("msg", .str "not a mapping")]])]]
      rfl rfl rfl rfl
      (by
        intro r hr
        simp only [List.mem_singleton] at hr
        subst hr
        refine ⟨_, _, rfl, rfl, ?_⟩
        intro f hf
        simp only [List.mem_cons, List.not_mem_nil, or_false] at hf
        rcases hf with rfl | rfl
        · exact ⟨_, rfl⟩
        · exact ⟨_, rfl⟩)
  · exact (load_violations_dispatch _).2.2.2.1 [.num 1, .str "two"] rfl
  · exact (load_violations_dispatch _).2.2.2.2.1 [("other", .null)] rfl rfl rfl rfl
  · exact (load_violations_dispatch _).2.2.2.2.2
      (fun fields h => Json.noConfusion h) (fun xs h => Json.noConfusion h)

end PolicyAsCode

namespace PolicyAsCode

/-- C7 counterexample: `compliance_report.py` run on a file whose content
is not valid JSON — `load_violations` catches the `json.JSONDecodeError`,
prints it to stderr and returns the empty list, so the run continues,
writes the report file and exits 0, contradicting the claimed fatal
treatment. -/
theorem invalid_json_not_fatal_counterexample :
    complianceReportMain (.error "Expecting value: line 1 column 1 (char 0)") "sox"
      = ⟨0, true, true⟩ := by
  rfl

/-- C7 amended: the `cli.py generate` command does treat invalid JSON as
fatal — error stream, exit 1, nothing written — but `compliance_report.py`
only reports the parse error to stderr, substitutes the empty violation
list, writes the report and exits 0 for every registered framework. -/
theorem invalid_json_error_paths (e : String) (formats : List String)
    (name : String) (fw : Framework)
    (h : FRAMEWORK_CONTROLS.lookup name = some fw) :
    generateCommand (.error e) formats = ⟨1, true, 0⟩ ∧
    complianceReportMain (.error e) name = ⟨0, true, true⟩ := by
  refine ⟨rfl, ?_⟩
  simp [complianceReportMain, evaluate_framework, h]
  rfl

/-- C7 witness: the amended behaviour at a concrete error message, format
selection and registered framework. -/
theorem invalid_json_error_paths_witness :
    FRAMEWORK_CONTROLS.lookup "pci" = some pciFramework ∧
    generateCommand (.error "Expecting value") ["html", "json"] = ⟨1, true, 0⟩ ∧
    complianceReportMain (.error "Expecting value") "pci" = ⟨0, true, true⟩ :=
  ⟨by decide,
   (invalid_json_error_paths "Expecting value" ["html", "json"] "pci" pciFramework
      (by decide)).1,
   (invalid_json_error_paths "Expecting value" ["html", "json"] "pci" pciFramework
      (by decide)).2⟩

end PolicyAsCode
